import Mathlib

/-!
Verification of the Bazik SDK core (src/index.js) against its specification.

The development shallowly embeds the token-lifecycle and request-dispatch
engine of the SDK: JavaScript truthiness on optional strings, the error
class hierarchy, the input validators, the credential manager
(authenticate, isTokenValid, getToken), the dispatcher with its
single-retry-on-401 policy, the domain facade validation pipelines, and
the payment polling helper.  The transport is modelled as an oracle
mapping the index of each HTTP exchange performed during a call to the
response (status and parsed body) that the server returns for it.
-/

namespace Bazik

/-- JavaScript truthiness of a nullable string value: undefined, null and
the empty string are falsy, every other string is truthy. -/
def strTruthy : Option String → Bool
  | none => false
  | some s => s != ""

/-- The JavaScript fallback idiom used throughout the source for optional
message fields: a missing or empty (falsy) string falls through to the
default. -/
def orElseStr (a : Option String) (b : String) : String :=
  match a with
  | none => b
  | some s => if s = "" then b else s

/-- Parsed JSON body of an HTTP response, with the fields the SDK reads:
the optional error envelope (error.message, error.code, error.details),
a top level message, the token payload of the /token endpoint
(token, expires_at), and a tag identifying the body so that theorems can
state that a body is returned verbatim. -/
structure RespBody where
  errorMessage : Option String
  errorCode : Option String
  errorDetails : Option String
  message : Option String
  token : Option String
  expiresAt : Int
  tag : Nat
  deriving DecidableEq, Repr

/-- An all-absent response body. -/
def RespBody.empty : RespBody := ⟨none, none, none, none, none, 0, 0⟩

/-- The details payload attached to a structured error: either a whole
response body (the usual case) or the error.details field of one (the
401 branch of authenticate). -/
inductive ErrDetails where
  | body (b : RespBody)
  | field (s : Option String)
  deriving DecidableEq, Repr

/-- A structured SDK error value: the class name together with the
message, status, code and details fields set by the BazikError
constructor chain. -/
structure BazikError where
  name : String
  message : String
  status : Option Int
  code : Option String
  details : Option ErrDetails
  deriving DecidableEq, Repr

/-- new BazikError(message, status, code, details). -/
def mkBazikError (message : String) (status : Option Int) (code : Option String)
    (details : Option ErrDetails) : BazikError :=
  ⟨"BazikError", message, status, code, details⟩

/-- new BazikAuthError(message, status, code, details). -/
def mkAuthError (message : String) (status : Option Int) (code : Option String)
    (details : Option ErrDetails) : BazikError :=
  ⟨"BazikAuthError", message, status, code, details⟩

/-- new BazikValidationError(message, details): fixes status 400 and code
"validation_error". -/
def mkValidationError (message : String) (details : Option ErrDetails) : BazikError :=
  ⟨"BazikValidationError", message, some 400, some "validation_error", details⟩

/-- new BazikInsufficientFundsError(message, details): status 402, code
"insufficient_funds". -/
def mkInsufficientFundsError (message : String) (details : Option ErrDetails) : BazikError :=
  ⟨"BazikInsufficientFundsError", message, some 402, some "insufficient_funds", details⟩

/-- new BazikRateLimitError(message, details): status 429, code
"rate_limit_exceeded". -/
def mkRateLimitError (message : String) (details : Option ErrDetails) : BazikError :=
  ⟨"BazikRateLimitError", message, some 429, some "rate_limit_exceeded", details⟩

/-- Anything a call can raise: a structured SDK error, or an exception
thrown by the caller supplied onTokenRefresh hook (which the source
invokes without any protection). -/
inductive Err where
  | bazik (e : BazikError)
  | hookRaised
  deriving DecidableEq, Repr

/-- The private credential fields of the client: #token and
#tokenExpiresAt. -/
structure ClientState where
  token : Option String
  tokenExpiresAt : Int
  deriving DecidableEq, Repr

/-- TOKEN_REFRESH_MARGIN_MS = 60 * 60 * 1000. -/
def TOKEN_REFRESH_MARGIN_MS : Int := 60 * 60 * 1000

/-- MAX_MONCASH_AMOUNT = 75000. -/
def MAX_MONCASH_AMOUNT : ℚ := 75000

/-- One HTTP response delivered by the transport: status code and parsed
body. -/
structure Response where
  status : Int
  data : RespBody
  deriving DecidableEq, Repr

/-- A transport oracle: the response the server gives to the n-th HTTP
exchange performed during one SDK call. -/
abbrev Oracle := Nat → Response

/-- The caller supplied onTokenRefresh hook, modelled by whether it
returns normally (true) or throws (false) on a given token. -/
abbrev Hook := String → Bool

/-- Record of one HTTP exchange performed by the client: whether it hit
the /token endpoint or the target endpoint of the call, and the bearer
token attached (none for /token exchanges, which carry credentials in
the body instead). -/
inductive ExchangeKind where
  | auth
  | target
  deriving DecidableEq, Repr

structure Exchange where
  kind : ExchangeKind
  bearer : Option String
  deriving DecidableEq, Repr

/-- Number of target-endpoint exchanges in a trace. -/
def targetCount (tr : List Exchange) : Nat :=
  (tr.filter (fun e => e.kind == ExchangeKind.target)).length

/-- Number of /token (authentication) exchanges in a trace. -/
def authCount (tr : List Exchange) : Nat :=
  (tr.filter (fun e => e.kind == ExchangeKind.auth)).length

instance {ε α : Type} [DecidableEq ε] [DecidableEq α] : DecidableEq (Except ε α)
  | .error a, .error b =>
    if h : a = b then isTrue (by rw [h]) else isFalse (by intro hh; injection hh; exact h ‹a = b›)
  | .error _, .ok _ => isFalse (by intro h; cases h)
  | .ok _, .error _ => isFalse (by intro h; cases h)
  | .ok a, .ok b =>
    if h : a = b then isTrue (by rw [h]) else isFalse (by intro hh; injection hh; exact h ‹a = b›)

/-- Outcome of Bazik.authenticate(): the returned body or raised error,
the credential fields after the call, and the list of tokens the
onTokenRefresh hook was invoked with. -/
structure AuthOutcome where
  result : Except Err RespBody
  state : ClientState
  hookCalls : List String
  deriving DecidableEq, Repr

/-- Whether the authentication exchange itself succeeded: status 200 and
a truthy token in the body (the negation of the condition of the third
throw in Bazik.authenticate). -/
def authExchangeOk (resp : Response) : Bool :=
  resp.status == 200 && strTruthy resp.data.token

/-- Bazik.authenticate(), given the response of the single POST /token
exchange it performs.  Classification in source order: 429 raises
BazikRateLimitError; 401 raises BazikAuthError from the error envelope;
any other non-200, or a 200 without a truthy token, raises BazikError;
otherwise #token and #tokenExpiresAt are both replaced and the hook, if
configured, is invoked with the new token (unprotected: a hook throw
escapes after the credential update). -/
def authenticate (hook : Option Hook) (st : ClientState) (resp : Response) : AuthOutcome :=
  if resp.status = 429 then
    ⟨.error (.bazik (mkRateLimitError
        "Too many authentication attempts. Please wait before retrying."
        (some (.body resp.data)))), st, []⟩
  else if resp.status = 401 then
    ⟨.error (.bazik (mkAuthError (orElseStr resp.data.errorMessage "Invalid credentials.")
        (some resp.status) resp.data.errorCode (some (.field resp.data.errorDetails)))),
      st, []⟩
  else if ¬ (resp.status = 200 ∧ strTruthy resp.data.token = true) then
    ⟨.error (.bazik (mkBazikError (orElseStr resp.data.errorMessage "Authentication failed.")
        (some resp.status) resp.data.errorCode (some (.body resp.data)))), st, []⟩
  else
    let st' : ClientState := ⟨resp.data.token, resp.data.expiresAt⟩
    let tok := resp.data.token.getD ""
    match hook with
    | none => ⟨.ok resp.data, st', []⟩
    | some h =>
      if h tok then ⟨.ok resp.data, st', [tok]⟩
      else ⟨.error .hookRaised, st', [tok]⟩

/-- Bazik.isTokenValid(): a truthy #token and Date.now() still strictly
before #tokenExpiresAt minus the refresh margin. -/
def isTokenValid (now : Int) (st : ClientState) : Bool :=
  strTruthy st.token && decide (now < st.tokenExpiresAt - TOKEN_REFRESH_MARGIN_MS)

/-- The condition under which Bazik.getToken() calls authenticate():
no truthy cached token, or auto-refresh enabled and the cached token no
longer valid. -/
def needsAuth (autoRefresh : Bool) (now : Int) (st : ClientState) : Bool :=
  !strTruthy st.token || (autoRefresh && !isTokenValid now st)

/-- Outcome of Bazik.getToken(): the token it returns (or the error it
propagates from authenticate), the state after the call, the HTTP
exchanges performed, and the hook invocations. -/
structure TokenOutcome where
  result : Except Err (Option String)
  state : ClientState
  trace : List Exchange
  hookCalls : List String
  deriving DecidableEq, Repr

/-- Bazik.getToken(): authenticate first when needed, then return the
current #token.  The response argument is the one the transport would
deliver to the authentication exchange, consumed only if that exchange
happens. -/
def getToken (autoRefresh : Bool) (hook : Option Hook) (now : Int) (st : ClientState)
    (resp : Response) : TokenOutcome :=
  if needsAuth autoRefresh now st then
    let a := authenticate hook st resp
    match a.result with
    | .error e => ⟨.error e, a.state, [⟨.auth, none⟩], a.hookCalls⟩
    | .ok _ => ⟨.ok a.state.token, a.state, [⟨.auth, none⟩], a.hookCalls⟩
  else ⟨.ok st.token, st, [], []⟩

/-- Outcome of Bazik._request(): result, final credential state, the
ordered list of HTTP exchanges performed (with the bearer token attached
to each target-endpoint exchange), and the hook invocations. -/
structure ReqOutcome where
  result : Except Err RespBody
  state : ClientState
  trace : List Exchange
  hookCalls : List String
  deriving DecidableEq, Repr

/-- The part of Bazik._request() after a token is in hand: issue the
exchange at oracle index k with the current token as bearer, then
classify the status in source order.  On 401 with auto-refresh: one
unconditional authenticate (oracle index k+1) and one retry (index k+2),
whose body is returned unless the retry status is again 401; note the
source inspects nothing but 401 on the retry.  On 401 without
auto-refresh: immediate BazikAuthError.  Then 402, 429, any status at
least 400, else return the body. -/
def dispatchAfterToken (autoRefresh : Bool) (hook : Option Hook) (st : ClientState)
    (oracle : Oracle) (k : Nat) : ReqOutcome :=
  let resp := oracle k
  let first : Exchange := ⟨.target, st.token⟩
  if resp.status = 401 then
    if autoRefresh then
      let a := authenticate hook st (oracle (k + 1))
      match a.result with
      | .error e => ⟨.error e, a.state, [first, ⟨.auth, none⟩], a.hookCalls⟩
      | .ok _ =>
        let retry := oracle (k + 2)
        let tr := [first, ⟨.auth, none⟩, ⟨.target, a.state.token⟩]
        if retry.status = 401 then
          ⟨.error (.bazik (mkAuthError "Authentication failed after token refresh."
              (some 401) (some "unauthorized") (some (.body retry.data)))),
            a.state, tr, a.hookCalls⟩
        else
          ⟨.ok retry.data, a.state, tr, a.hookCalls⟩
    else
      ⟨.error (.bazik (mkAuthError (orElseStr resp.data.errorMessage "Unauthorized.")
          (some 401) resp.data.errorCode (some (.body resp.data)))), st, [first], []⟩
  else if resp.status = 402 then
    ⟨.error (.bazik (mkInsufficientFundsError
        (orElseStr resp.data.errorMessage "Insufficient funds.")
        (some (.body resp.data)))), st, [first], []⟩
  else if resp.status = 429 then
    ⟨.error (.bazik (mkRateLimitError
        (orElseStr resp.data.errorMessage "Rate limit exceeded.")
        (some (.body resp.data)))), st, [first], []⟩
  else if 400 ≤ resp.status then
    let s := resp.status
    ⟨.error (.bazik (mkBazikError
        (orElseStr resp.data.errorMessage
          (orElseStr resp.data.message s!"Request failed with status {s}"))
        (some resp.status) resp.data.errorCode (some (.body resp.data)))), st, [first], []⟩
  else
    ⟨.ok resp.data, st, [first], []⟩

/-- Bazik._request(method, path, body): obtain a token via getToken
(oracle index 0 is the authentication exchange when one is needed), then
dispatch.  Any failure from getToken propagates unchanged. -/
def underscoreRequest (autoRefresh : Bool) (hook : Option Hook) (now : Int)
    (st : ClientState) (oracle : Oracle) : ReqOutcome :=
  if needsAuth autoRefresh now st then
    let a := authenticate hook st (oracle 0)
    match a.result with
    | .error e => ⟨.error e, a.state, [⟨.auth, none⟩], a.hookCalls⟩
    | .ok _ =>
      let r := dispatchAfterToken autoRefresh hook a.state oracle 1
      ⟨r.result, r.state, ⟨.auth, none⟩ :: r.trace, a.hookCalls ++ r.hookCalls⟩
  else dispatchAfterToken autoRefresh hook st oracle 0

/-! ### Input validators and domain facades -/

/-- A JavaScript number as the validators see it: NaN, the two
infinities, or a finite value. -/
inductive JSNum where
  | nan
  | posInf
  | negInf
  | fin (q : ℚ)
  deriving DecidableEq, Repr

/-- A JavaScript value as passed to a validator: undefined, null, a
string, a number, or some other object. -/
inductive JSVal where
  | undef
  | null
  | str (s : String)
  | num (n : JSNum)
  | obj
  deriving DecidableEq, Repr

/-- String rendering of a number, used by the template literals in the
validation messages. -/
def jsNumToString : JSNum → String
  | .nan => "NaN"
  | .posInf => "Infinity"
  | .negInf => "-Infinity"
  | .fin q => toString q

/-- String rendering of a value interpolated into a validation message. -/
def jsValToString : JSVal → String
  | .undef => "undefined"
  | .null => "null"
  | .str s => s
  | .num n => jsNumToString n
  | .obj => "[object Object]"

/-- The missing-field test of validateRequired: a field is missing when
its value is undefined, null, or the empty string. -/
def fieldMissing : JSVal → Bool
  | .undef => true
  | .null => true
  | .str s => s == ""
  | _ => false

/-- validateRequired(obj, fields): collect the missing fields in the
order given and raise a BazikValidationError naming all of them when any
is missing. -/
def validateRequired (fields : List (String × JSVal)) : Option BazikError :=
  let missing := (fields.filter (fun p => fieldMissing p.2)).map (fun p => p.1)
  if missing.length > 0 then
    some (mkValidationError
      ("Missing required field(s): " ++ String.intercalate ", " missing) none)
  else none

/-- validateAmount(amount, max): reject anything that is not a finite
number or is not strictly positive; then, when a maximum is supplied,
reject values exceeding it with a separate message naming the maximum. -/
def validateAmount (amount : JSVal) (max : Option ℚ) : Option BazikError :=
  match amount with
  | .num (.fin q) =>
    if q ≤ 0 then
      some (mkValidationError
        ("Invalid amount: " ++ jsValToString amount ++ ". Must be a positive number.") none)
    else
      match max with
      | some m =>
        if m < q then
          some (mkValidationError
            ("Amount " ++ jsValToString amount ++ " exceeds maximum of "
              ++ toString m ++ " HTG.") none)
        else none
      | none => none
  | v =>
    some (mkValidationError
      ("Invalid amount: " ++ jsValToString v ++ ". Must be a positive number.") none)

/-- The regular expression of validateWallet: eight decimal digits
optionally followed by exactly three more, anchored on both sides, so it
accepts exactly the strings of 8 or 11 decimal digits. -/
def walletRegexTest (s : String) : Bool :=
  (s.length == 8 || s.length == 11) && s.toList.all (fun c => c.isDigit)

/-- validateWallet(wallet): reject any non-string and any string not
matching the 8-or-11-digit pattern. -/
def validateWallet (wallet : JSVal) : Option BazikError :=
  match wallet with
  | .str s =>
    if walletRegexTest s then none
    else
      some (mkValidationError
        ("Invalid wallet number \"" ++ s ++ "\". Must be 8 or 11 digits.") none)
  | v =>
    some (mkValidationError
      ("Invalid wallet number \"" ++ jsValToString v ++ "\". Must be 8 or 11 digits.") none)

/-- The method and path a facade hands to the dispatcher once its
validators have all passed; a facade result of .error e means the call
failed locally and no network exchange was attempted. -/
structure DispatchCall where
  method : String
  path : String
  deriving DecidableEq, Repr

/-- Payments.create: require gdes, validate the amount against the
MonCash cap, then dispatch POST /moncash/token. -/
def paymentsCreate (gdes : JSVal) : Except BazikError DispatchCall :=
  match validateRequired [("gdes", gdes)] with
  | some e => .error e
  | none =>
    match validateAmount gdes (some MAX_MONCASH_AMOUNT) with
    | some e => .error e
    | none => .ok ⟨"POST", "/moncash/token"⟩

/-- Payments.withdraw: require the four fields, validate amount (no cap)
and wallet, then dispatch POST /moncash/withdraw. -/
def paymentsWithdraw (gdes wallet firstName lastName : JSVal) :
    Except BazikError DispatchCall :=
  match validateRequired [("gdes", gdes), ("wallet", wallet),
      ("customerFirstName", firstName), ("customerLastName", lastName)] with
  | some e => .error e
  | none =>
    match validateAmount gdes none with
    | some e => .error e
    | none =>
      match validateWallet wallet with
      | some e => .error e
      | none => .ok ⟨"POST", "/moncash/withdraw"⟩

/-- Transfers.checkCustomer: validate the wallet then dispatch
POST /moncash/customers/status. -/
def transfersCheckCustomer (wallet : JSVal) : Except BazikError DispatchCall :=
  match validateWallet wallet with
  | some e => .error e
  | none => .ok ⟨"POST", "/moncash/customers/status"⟩

/-- Transfers.moncash: same validation pipeline as withdraw, dispatching
POST /moncash/transfers. -/
def transfersMoncash (gdes wallet firstName lastName : JSVal) :
    Except BazikError DispatchCall :=
  match validateRequired [("gdes", gdes), ("wallet", wallet),
      ("customerFirstName", firstName), ("customerLastName", lastName)] with
  | some e => .error e
  | none =>
    match validateAmount gdes none with
    | some e => .error e
    | none =>
      match validateWallet wallet with
      | some e => .error e
      | none => .ok ⟨"POST", "/moncash/transfers"⟩

/-- Transfers.natcash: same pipeline, dispatching POST /natcash/transfers. -/
def transfersNatcash (gdes wallet firstName lastName : JSVal) :
    Except BazikError DispatchCall :=
  match validateRequired [("gdes", gdes), ("wallet", wallet),
      ("customerFirstName", firstName), ("customerLastName", lastName)] with
  | some e => .error e
  | none =>
    match validateAmount gdes none with
    | some e => .error e
    | none =>
      match validateWallet wallet with
      | some e => .error e
      | none => .ok ⟨"POST", "/natcash/transfers"⟩

/-! ### Client constructor -/

/-- The configuration object of the Bazik constructor, restricted to the
fields the constructor inspects for the claims: userID and secretKey
(strings that may be absent), and the autoRefresh toggle (absent means
enabled, since the source compares with strict inequality to false). -/
structure Config where
  userID : Option String
  secretKey : Option String
  autoRefresh : Option Bool
  deriving DecidableEq, Repr

/-- The observable result of constructing a client: the initial
credential fields, the effective auto-refresh flag, and the HTTP
exchanges performed during construction (none, as construction is
purely local). -/
structure InitClient where
  state : ClientState
  autoRefresh : Bool
  trace : List Exchange
  deriving DecidableEq, Repr

/-- The Bazik constructor: reject a missing config or a falsy userID or
secretKey with a BazikValidationError, otherwise start with no token,
expiry 0 and autoRefresh on unless explicitly false.  No network
exchange is performed. -/
def bazikConstructor (config : Option Config) : Except BazikError InitClient :=
  match config with
  | none =>
    .error (mkValidationError
      "Both userID and secretKey are required to initialize the Bazik client." none)
  | some c =>
    if !strTruthy c.userID || !strTruthy c.secretKey then
      .error (mkValidationError
        "Both userID and secretKey are required to initialize the Bazik client." none)
    else
      .ok ⟨⟨none, 0⟩, c.autoRefresh != some false, []⟩

/-! ### Payment polling helper -/

/-- Outcome of Payments.waitForCompletion: the first non-pending payment
(its index, status and the clock time just after its verify call
returned), or the raised timeout error together with the clock time at
which the loop condition observed the deadline passed, or exhaustion of
the step budget of the model. -/
inductive PollOutcome where
  | payment (i : Nat) (status : String) (t : Nat)
  | failure (e : BazikError) (t : Nat)
  | fuelOut
  deriving DecidableEq, Repr

/-- Instrumentation of a polling run: the clock times at which each
verify call was issued and at which each inter-attempt sleep began. -/
structure PollTrace where
  verifyStarts : List Nat
  sleepStarts : List Nat
  deriving DecidableEq, Repr

/-- The timeout error raised by waitForCompletion: a plain BazikError
with no status, code "timeout", no details. -/
def pollTimeoutError (timeoutMs : Nat) : BazikError :=
  mkBazikError s!"Payment verification timed out after {timeoutMs}ms." none
    (some "timeout") none

/-- The while loop of waitForCompletion.  The verification oracle maps
the attempt index to the status field of the returned payment and the
wall-clock duration of that verify call.  Each iteration first evaluates
the loop condition Date.now() < deadline; if it holds, verify runs, a
non-pending status returns immediately, and otherwise the loop
unconditionally sleeps intervalMs before re-evaluating the condition.
The fuel argument bounds the number of iterations of the model. -/
def pollLoop (ev : Nat → String × Nat) (intervalMs deadline timeoutMs : Nat) :
    Nat → Nat → Nat → PollOutcome × PollTrace
  | 0, _, t =>
    if t < deadline then (.fuelOut, ⟨[], []⟩)
    else (.failure (pollTimeoutError timeoutMs) t, ⟨[], []⟩)
  | fuel + 1, i, t =>
    if t < deadline then
      let e := ev i
      let t' := t + e.2
      if e.1 != "pending" then (.payment i e.1 t', ⟨[t], []⟩)
      else
        let rest := pollLoop ev intervalMs deadline timeoutMs fuel (i + 1) (t' + intervalMs)
        (rest.1, ⟨t :: rest.2.verifyStarts, t' :: rest.2.sleepStarts⟩)
    else (.failure (pollTimeoutError timeoutMs) t, ⟨[], []⟩)

/-- Payments.waitForCompletion with the clock starting at 0, so the
deadline computed at entry equals timeoutMs. -/
def waitForCompletion (ev : Nat → String × Nat) (intervalMs timeoutMs fuel : Nat) :
    PollOutcome × PollTrace :=
  pollLoop ev intervalMs timeoutMs timeoutMs fuel 0 0

end Bazik

namespace Bazik

/-! ### Claim C6: isTokenValid -/

/-- Claim C6: for every credential state and current time, isTokenValid
returns true if and only if a (truthy) token is present and the current
time is strictly before expiresAt minus the refresh margin, and it
returns false when the client has never authenticated (no token). -/
theorem c6_isTokenValid_iff (now : Int) (st : ClientState) :
    (isTokenValid now st = true ↔
      strTruthy st.token = true ∧ now < st.tokenExpiresAt - TOKEN_REFRESH_MARGIN_MS)
    ∧ (st.token = none → isTokenValid now st = false) := by
  constructor
  · simp [isTokenValid]
  · intro h
    simp [isTokenValid, h, strTruthy]

/-- Witness for C6: the freshly constructed client, which has no token,
is reported invalid at time 0. -/
theorem c6_isTokenValid_witness : isTokenValid 0 ⟨none, 0⟩ = false :=
  (c6_isTokenValid_iff 0 ⟨none, 0⟩).2 rfl

/-! ### Claim C5: getToken -/

/-- Claim C5: getToken authenticates first exactly when no token is
cached or auto-refresh is enabled and the cached token fails
isTokenValid; it then returns the current token; with auto-refresh
disabled and a cached (possibly stale) token it returns that token with
no authentication exchange. -/
theorem c5_getToken (autoRefresh : Bool) (hook : Option Hook) (now : Int)
    (st : ClientState) (resp : Response) :
    (needsAuth autoRefresh now st = true ↔
      strTruthy st.token = false ∨ (autoRefresh = true ∧ isTokenValid now st = false))
    ∧ (needsAuth autoRefresh now st = true →
        (getToken autoRefresh hook now st resp).trace = [⟨.auth, none⟩])
    ∧ (needsAuth autoRefresh now st = false →
        getToken autoRefresh hook now st resp = ⟨.ok st.token, st, [], []⟩)
    ∧ (∀ tok, (getToken autoRefresh hook now st resp).result = .ok tok →
        tok = (getToken autoRefresh hook now st resp).state.token)
    ∧ (autoRefresh = false → strTruthy st.token = true →
        getToken autoRefresh hook now st resp = ⟨.ok st.token, st, [], []⟩)
    := by
  refine ⟨?_, ?_, ?_, ?_, ?_⟩
  · simp [needsAuth]
  · intro h
    simp only [getToken, h, if_true]
    cases (authenticate hook st resp).result <;> simp
  · intro h
    simp [getToken, h]
  · intro tok
    simp only [getToken]
    by_cases h : needsAuth autoRefresh now st = true
    · simp only [h, if_true]
      cases hr : (authenticate hook st resp).result <;> simp
      intro he
      exact he.symm
    · simp only [Bool.not_eq_true] at h
      simp [h]
      intro he
      exact he.symm
  · intro h1 h2
    have : needsAuth autoRefresh now st = false := by
      simp [needsAuth, h1, h2]
    simp [getToken, this]

/-- Witness for C5: with auto-refresh off and a cached token, getToken
returns the cached token without any exchange even though the token is
stale at the given time. -/
theorem c5_getToken_witness :
    getToken false none 999999999999 ⟨some "tok_stale", 0⟩ ⟨500, RespBody.empty⟩ =
      ⟨.ok (some "tok_stale"), ⟨some "tok_stale", 0⟩, [], []⟩ :=
  (c5_getToken false none 999999999999 ⟨some "tok_stale", 0⟩
    ⟨500, RespBody.empty⟩).2.2.2.2 rfl rfl

/-! ### Claim C10: the constructor -/

/-- Claim C10: constructing the client fails with the fixed
BazikValidationError (status 400, code validation_error) exactly when
the configuration is absent or userID or secretKey is missing or empty;
on success the credential starts absent (token null, expiry 0) and no
network exchange happens. -/
theorem c10_constructor (config : Option Config) :
    (bazikConstructor config =
        .error (mkValidationError
          "Both userID and secretKey are required to initialize the Bazik client." none)
      ↔ (config = none ∨ ∃ c, config = some c ∧
          (strTruthy c.userID = false ∨ strTruthy c.secretKey = false)))
    ∧ (∀ ic, bazikConstructor config = .ok ic →
        ic.state = ⟨none, 0⟩ ∧ ic.trace = []) := by
  cases config with
  | none => simp [bazikConstructor]
  | some c =>
    constructor
    · simp only [bazikConstructor]
      by_cases hu : strTruthy c.userID = true
      · by_cases hs : strTruthy c.secretKey = true
        · simp [hu, hs]
        · simp only [Bool.not_eq_true] at hs
          simp [hu, hs]
      · simp only [Bool.not_eq_true] at hu
        simp [hu]
    · intro ic h
      simp only [bazikConstructor] at h
      by_cases hu : strTruthy c.userID = true
      · by_cases hs : strTruthy c.secretKey = true
        · simp [hu, hs] at h
          simp [← h]
        · simp only [Bool.not_eq_true] at hs
          simp [hu, hs] at h
      · simp only [Bool.not_eq_true] at hu
        simp [hu] at h

/-- Witness for C10: an empty secretKey is rejected with the exact
validation error, and a well-formed config yields a client with no
credential. -/
theorem c10_constructor_witness :
    bazikConstructor (some ⟨some "bzk_user", some "", none⟩) =
      .error (mkValidationError
        "Both userID and secretKey are required to initialize the Bazik client." none) :=
  (c10_constructor (some ⟨some "bzk_user", some "", none⟩)).1.mpr
    (Or.inr ⟨⟨some "bzk_user", some "", none⟩, rfl, Or.inr rfl⟩)

/-! ### Claims C8 and C9: the input validators -/

/-- Whether a facade call reached the dispatcher: .ok carries the
method/path handed over, .error means the call failed locally. -/
def isOkCall (r : Except BazikError DispatchCall) : Bool :=
  match r with
  | .ok _ => true
  | .error _ => false

/-- Reduction of validateAmount on a positive finite amount with a
maximum supplied: only the maximum check remains. -/
lemma validateAmount_fin_some (q m : ℚ) (hq : ¬ q ≤ 0) :
    validateAmount (.num (.fin q)) (some m) =
      if m < q then
        some (mkValidationError
          ("Amount " ++ jsValToString (.num (.fin q)) ++ " exceeds maximum of "
            ++ toString m ++ " HTG.") none)
      else none := by
  simp only [validateAmount]
  rw [if_neg hq]

/-- Every failure of validateAmount is a BazikValidationError with no
details payload. -/
lemma validateAmount_shape (a : JSVal) (mx : Option ℚ) :
    validateAmount a mx = none ∨
      ∃ msg, validateAmount a mx = some (mkValidationError msg none) := by
  cases a with
  | num n =>
    cases n with
    | fin q =>
      by_cases hq : q ≤ 0
      · exact Or.inr ⟨_, by simp only [validateAmount]; rw [if_pos hq]⟩
      · cases mx with
        | none => exact Or.inl (by simp only [validateAmount]; rw [if_neg hq])
        | some m =>
          by_cases hm : m < q
          · exact Or.inr ⟨_, by rw [validateAmount_fin_some q m hq, if_pos hm]⟩
          · exact Or.inl (by rw [validateAmount_fin_some q m hq, if_neg hm])
    | nan => exact Or.inr ⟨_, rfl⟩
    | posInf => exact Or.inr ⟨_, rfl⟩
    | negInf => exact Or.inr ⟨_, rfl⟩
  | undef => exact Or.inr ⟨_, rfl⟩
  | null => exact Or.inr ⟨_, rfl⟩
  | str s => exact Or.inr ⟨_, rfl⟩
  | obj => exact Or.inr ⟨_, rfl⟩

/-- Every failure of validateWallet is a BazikValidationError with no
details payload. -/
lemma validateWallet_shape (v : JSVal) :
    validateWallet v = none ∨
      ∃ msg, validateWallet v = some (mkValidationError msg none) := by
  cases v with
  | str s =>
    simp only [validateWallet]
    by_cases h : walletRegexTest s = true
    · exact Or.inl (by rw [if_pos h])
    · exact Or.inr ⟨_, by rw [if_neg h]⟩
  | undef => exact Or.inr ⟨_, rfl⟩
  | null => exact Or.inr ⟨_, rfl⟩
  | num n => exact Or.inr ⟨_, rfl⟩
  | obj => exact Or.inr ⟨_, rfl⟩

/-- Claim C8: the amount check passes a finite number exactly when it is
strictly positive and within the supplied maximum; everything that is
not a finite number fails; a supplied maximum produces the separate
error naming the maximum; every failure is a BazikValidationError;
payments.create rejects gdes 80000 against the 75,000 cap, accepts
75000, and reaches the dispatcher exactly when both of its validators
pass (so a validation failure never produces a network call). -/
theorem c8_validateAmount (a : JSVal) (mx : Option ℚ) (q m : ℚ) :
    (validateAmount (.num (.fin q)) mx = none ↔
      (0 < q ∧ ∀ mm, mx = some mm → q ≤ mm))
    ∧ ((∀ r, a ≠ .num (.fin r)) → validateAmount a mx ≠ none)
    ∧ (∀ e, validateAmount a mx = some e →
        e.name = "BazikValidationError" ∧ e.status = some 400 ∧
          e.code = some "validation_error")
    ∧ (0 < q → m < q →
        validateAmount (.num (.fin q)) (some m) = some (mkValidationError
          ("Amount " ++ jsValToString (.num (.fin q)) ++ " exceeds maximum of "
            ++ toString m ++ " HTG.") none))
    ∧ paymentsCreate (.num (.fin 80000)) =
        .error (mkValidationError "Amount 80000 exceeds maximum of 75000 HTG." none)
    ∧ paymentsCreate (.num (.fin 75000)) = .ok ⟨"POST", "/moncash/token"⟩
    ∧ (∀ g, isOkCall (paymentsCreate g) = true ↔
        (validateRequired [("gdes", g)] = none ∧
          validateAmount g (some MAX_MONCASH_AMOUNT) = none)) := by
  refine ⟨?_, ?_, ?_, ?_, by decide, by decide, ?_⟩
  · by_cases hq : q ≤ 0
    · simp only [validateAmount]
      rw [if_pos hq]
      simp only [reduceCtorEq, false_iff, not_and]
      intro h0
      exact absurd hq (not_le.mpr h0)
    · cases mx with
      | none =>
        simp only [validateAmount]
        rw [if_neg hq]
        simp [not_le.mp hq]
      | some m2 =>
        rw [validateAmount_fin_some q m2 hq]
        by_cases hm : m2 < q
        · rw [if_pos hm]
          simp only [reduceCtorEq, false_iff, not_and]
          intro _ h
          exact absurd (h m2 rfl) (not_le.mpr hm)
        · rw [if_neg hm]
          simp only [true_iff]
          refine ⟨not_le.mp hq, ?_⟩
          intro mm hmm
          cases hmm
          exact not_lt.mp hm
  · intro h
    cases a with
    | num n =>
      cases n with
      | fin r => exact absurd rfl (h r)
      | nan => simp [validateAmount]
      | posInf => simp [validateAmount]
      | negInf => simp [validateAmount]
    | undef => simp [validateAmount]
    | null => simp [validateAmount]
    | str s => simp [validateAmount]
    | obj => simp [validateAmount]
  · intro e he
    rcases validateAmount_shape a mx with h | ⟨msg, h⟩
    · rw [h] at he
      cases he
    · rw [h] at he
      injection he with he2
      rw [← he2]
      exact ⟨rfl, rfl, rfl⟩
  · intro h0 hm
    rw [validateAmount_fin_some q m (not_le.mpr h0), if_pos hm]
  · intro g
    cases h1 : validateRequired [("gdes", g)] with
    | some e => simp [paymentsCreate, h1, isOkCall]
    | none =>
      cases h2 : validateAmount g (some MAX_MONCASH_AMOUNT) with
      | some e => simp [paymentsCreate, h1, h2, isOkCall]
      | none => simp [paymentsCreate, h1, h2, isOkCall]

/-- Witness for C8: the amount check at gdes 80000 against the 75,000
cap yields the error naming the maximum. -/
theorem c8_validateAmount_witness :
    validateAmount (.num (.fin 80000)) (some 75000) = some (mkValidationError
      ("Amount " ++ jsValToString (.num (.fin 80000)) ++ " exceeds maximum of "
        ++ toString (75000 : ℚ) ++ " HTG.") none) :=
  (c8_validateAmount (.num (.fin 80000)) (some 75000) 80000 75000).2.2.2.1
    (by norm_num) (by norm_num)

/-- Claim C9: the wallet check accepts a string exactly when it is 8 or
11 decimal digits, rejects every non-string, produces only
BazikValidationError failures, passes and fails the four quoted
examples, and every wallet-taking facade reaches the dispatcher only
when the wallet check passes. -/
theorem c9_validateWallet (s : String) (v : JSVal) (g fn ln w : JSVal) :
    (validateWallet (.str s) = none ↔
      ((s.length = 8 ∨ s.length = 11) ∧ ∀ c ∈ s.toList, c.isDigit = true))
    ∧ ((∀ s2, v ≠ .str s2) → validateWallet v ≠ none)
    ∧ (∀ e, validateWallet v = some e →
        e.name = "BazikValidationError" ∧ e.status = some 400 ∧
          e.code = some "validation_error")
    ∧ validateWallet (.str "47556677") = none
    ∧ validateWallet (.str "12345678901") = none
    ∧ validateWallet (.str "123") ≠ none
    ∧ validateWallet (.str "1234567") ≠ none
    ∧ (isOkCall (transfersCheckCustomer w) = true → validateWallet w = none)
    ∧ (isOkCall (paymentsWithdraw g w fn ln) = true → validateWallet w = none)
    ∧ (isOkCall (transfersMoncash g w fn ln) = true → validateWallet w = none)
    ∧ (isOkCall (transfersNatcash g w fn ln) = true → validateWallet w = none) := by
  have hwre : ∀ s2 : String, walletRegexTest s2 = true ↔
      ((s2.length = 8 ∨ s2.length = 11) ∧ ∀ c ∈ s2.toList, c.isDigit = true) := by
    intro s2
    simp [walletRegexTest, List.all_eq_true]
  refine ⟨?_, ?_, ?_, by decide, by decide, by decide, by decide, ?_, ?_, ?_, ?_⟩
  · simp only [validateWallet]
    by_cases h : walletRegexTest s = true
    · rw [if_pos h]
      simp only [true_iff]
      exact (hwre s).mp h
    · rw [if_neg h]
      simp only [reduceCtorEq, false_iff]
      intro hc
      exact h ((hwre s).mpr hc)
  · intro h
    cases v with
    | str s2 => exact absurd rfl (h s2)
    | undef => simp [validateWallet]
    | null => simp [validateWallet]
    | num n => simp [validateWallet]
    | obj => simp [validateWallet]
  · intro e he
    rcases validateWallet_shape v with h | ⟨msg, h⟩
    · rw [h] at he
      cases he
    · rw [h] at he
      injection he with he2
      rw [← he2]
      exact ⟨rfl, rfl, rfl⟩
  · intro h
    cases hw : validateWallet w with
    | some e => simp [transfersCheckCustomer, hw, isOkCall] at h
    | none => rfl
  · intro h
    cases hr : validateRequired [("gdes", g), ("wallet", w),
        ("customerFirstName", fn), ("customerLastName", ln)] with
    | some e => simp [paymentsWithdraw, hr, isOkCall] at h
    | none =>
      cases ha : validateAmount g none with
      | some e => simp [paymentsWithdraw, hr, ha, isOkCall] at h
      | none =>
        cases hw : validateWallet w with
        | some e => simp [paymentsWithdraw, hr, ha, hw, isOkCall] at h
        | none => rfl
  · intro h
    cases hr : validateRequired [("gdes", g), ("wallet", w),
        ("customerFirstName", fn), ("customerLastName", ln)] with
    | some e => simp [transfersMoncash, hr, isOkCall] at h
    | none =>
      cases ha : validateAmount g none with
      | some e => simp [transfersMoncash, hr, ha, isOkCall] at h
      | none =>
        cases hw : validateWallet w with
        | some e => simp [transfersMoncash, hr, ha, hw, isOkCall] at h
        | none => rfl
  · intro h
    cases hr : validateRequired [("gdes", g), ("wallet", w),
        ("customerFirstName", fn), ("customerLastName", ln)] with
    | some e => simp [transfersNatcash, hr, isOkCall] at h
    | none =>
      cases ha : validateAmount g none with
      | some e => simp [transfersNatcash, hr, ha, isOkCall] at h
      | none =>
        cases hw : validateWallet w with
        | some e => simp [transfersNatcash, hr, ha, hw, isOkCall] at h
        | none => rfl

/-- Witness for C9: the 11 digit example is accepted, shown by applying
the claim theorem with its accept-iff direction at that string. -/
theorem c9_validateWallet_witness : validateWallet (.str "12345678901") = none :=
  (c9_validateWallet "12345678901" .obj .obj .obj .obj .obj).1.mpr
    ⟨Or.inr (by decide), by decide⟩

/-! ### Claims C3 and C4: authenticate and the notification hook

The source invokes the onTokenRefresh hook with no protection after
storing the new credential, so a throwing hook makes authenticate()
raise after the credential has already been replaced. -/

/-- A notification hook that always throws. -/
def hookThrow : Hook := fun _ => false

/-- A successful /token response carrying a fresh token. -/
def respAuthC3 : Response := ⟨200, ⟨none, none, none, none, some "tok_c3", 7200000, 31⟩⟩

/-- Counterexample to C3 as stated: with a throwing notification hook
and a successful authentication exchange, authenticate() raises, yet the
stored credential is no longer what it was before the call. -/
theorem c3_counterexample :
    (authenticate (some hookThrow) ⟨none, 0⟩ respAuthC3).result = .error .hookRaised
    ∧ (authenticate (some hookThrow) ⟨none, 0⟩ respAuthC3).state ≠ ⟨none, 0⟩ := by
  constructor
  · rfl
  · decide

/-- authExchangeOk spelled out as a proposition. -/
lemma authExchangeOk_iff (resp : Response) :
    authExchangeOk resp = true ↔ (resp.status = 200 ∧ strTruthy resp.data.token = true) := by
  simp [authExchangeOk]

/-- Reduction of authenticate on a failed exchange: the three throw
branches all leave the state untouched, invoke no hook, and return no
success. -/
lemma authenticate_fail (hook : Option Hook) (st : ClientState) (resp : Response)
    (hok : ¬ (resp.status = 200 ∧ strTruthy resp.data.token = true)) :
    (authenticate hook st resp).state = st
    ∧ (authenticate hook st resp).hookCalls = []
    ∧ ∀ b, (authenticate hook st resp).result ≠ .ok b := by
  unfold authenticate
  by_cases h429 : resp.status = 429
  · rw [if_pos h429]
    exact ⟨rfl, rfl, fun b h => by cases h⟩
  · rw [if_neg h429]
    by_cases h401 : resp.status = 401
    · rw [if_pos h401]
      exact ⟨rfl, rfl, fun b h => by cases h⟩
    · rw [if_neg h401, if_pos hok]
      exact ⟨rfl, rfl, fun b h => by cases h⟩

/-- Reduction of authenticate on a successful exchange with no hook. -/
lemma authenticate_ok_none (st : ClientState) (resp : Response)
    (h200 : resp.status = 200) (htok : strTruthy resp.data.token = true) :
    authenticate none st resp =
      ⟨.ok resp.data, ⟨resp.data.token, resp.data.expiresAt⟩, []⟩ := by
  unfold authenticate
  rw [if_neg (by rw [h200]; decide), if_neg (by rw [h200]; decide),
    if_neg (not_not_intro ⟨h200, htok⟩)]

/-- Reduction of authenticate on a successful exchange with a hook: the
credential is replaced, the hook runs once with the new token, and its
outcome decides whether the call returns or raises. -/
lemma authenticate_ok_some (h : Hook) (st : ClientState) (resp : Response)
    (h200 : resp.status = 200) (htok : strTruthy resp.data.token = true) :
    authenticate (some h) st resp =
      if h (resp.data.token.getD "") = true then
        ⟨.ok resp.data, ⟨resp.data.token, resp.data.expiresAt⟩,
          [resp.data.token.getD ""]⟩
      else
        ⟨.error .hookRaised, ⟨resp.data.token, resp.data.expiresAt⟩,
          [resp.data.token.getD ""]⟩ := by
  unfold authenticate
  rw [if_neg (by rw [h200]; decide), if_neg (by rw [h200]; decide),
    if_neg (not_not_intro ⟨h200, htok⟩)]

/-- Claim C3 amended: when the authentication exchange itself fails
(any non-200 status, or a 200 without a token), the credential is
exactly what it was before and no success is returned; when the
exchange succeeds, token and expiry are both replaced with the values
of the response before the hook runs, so even a throwing hook leaves
the complete new pair in place; in every case the credential is either
the old pair or the complete new pair, never a mix. -/
theorem c3_authenticate_atomic (hook : Option Hook) (st : ClientState) (resp : Response) :
    (authExchangeOk resp = false →
      (authenticate hook st resp).state = st
      ∧ ∀ b, (authenticate hook st resp).result ≠ .ok b)
    ∧ (authExchangeOk resp = true →
        (authenticate hook st resp).state = ⟨resp.data.token, resp.data.expiresAt⟩)
    ∧ ((authenticate hook st resp).state = st
        ∨ (authenticate hook st resp).state = ⟨resp.data.token, resp.data.expiresAt⟩)
    := by
  by_cases hok : authExchangeOk resp = true
  · obtain ⟨h200, htok⟩ := (authExchangeOk_iff resp).mp hok
    have hst : (authenticate hook st resp).state = ⟨resp.data.token, resp.data.expiresAt⟩ := by
      cases hook with
      | none => rw [authenticate_ok_none st resp h200 htok]
      | some h =>
        rw [authenticate_ok_some h st resp h200 htok]
        by_cases hc : h (resp.data.token.getD "") = true
        · rw [if_pos hc]
        · rw [if_neg hc]
    exact ⟨fun hf => absurd hok (by rw [hf]; exact Bool.false_ne_true), fun _ => hst,
      Or.inr hst⟩
  · have hprop : ¬ (resp.status = 200 ∧ strTruthy resp.data.token = true) := by
      intro hc
      exact hok ((authExchangeOk_iff resp).mpr hc)
    obtain ⟨h1, h2, h3⟩ := authenticate_fail hook st resp hprop
    exact ⟨fun _ => ⟨h1, h3⟩, fun ht => absurd ht hok, Or.inl h1⟩

/-- Witness for C3 amended: a 401 response to the authentication
exchange leaves a previously cached credential untouched. -/
theorem c3_authenticate_atomic_witness :
    (authenticate none ⟨some "tok_old", 99⟩ ⟨401, RespBody.empty⟩).state =
      ⟨some "tok_old", 99⟩ :=
  ((c3_authenticate_atomic none ⟨some "tok_old", 99⟩ ⟨401, RespBody.empty⟩).1 rfl).1

/-- A successful /token response used by the C4 counterexample. -/
def respAuthC4 : Response := ⟨200, ⟨none, none, none, none, some "tok_c4", 7200000, 41⟩⟩

/-- Counterexample to C4 as stated: the hook is invoked once with the
new token, but its throw makes the authenticate() call itself fail. -/
theorem c4_counterexample :
    (authenticate (some hookThrow) ⟨none, 0⟩ respAuthC4).hookCalls = ["tok_c4"]
    ∧ (authenticate (some hookThrow) ⟨none, 0⟩ respAuthC4).result = .error .hookRaised := by
  constructor
  · rfl
  · rfl

/-- Claim C4 amended: on a successful authentication exchange the hook
is invoked exactly once with the new token; it is never invoked when the
exchange fails; but the invocation is unprotected, so a throwing hook
makes authenticate() raise (a returning hook leaves the call
successful). -/
theorem c4_hook (hook : Hook) (st : ClientState) (resp : Response) :
    (authExchangeOk resp = false →
      (authenticate (some hook) st resp).hookCalls = []
      ∧ (authenticate none st resp).hookCalls = [])
    ∧ (authExchangeOk resp = true →
        (authenticate (some hook) st resp).hookCalls = [resp.data.token.getD ""]
        ∧ (hook (resp.data.token.getD "") = true →
            (authenticate (some hook) st resp).result = .ok resp.data)
        ∧ (hook (resp.data.token.getD "") = false →
            (authenticate (some hook) st resp).result = .error .hookRaised)) := by
  constructor
  · intro hokf
    have hprop : ¬ (resp.status = 200 ∧ strTruthy resp.data.token = true) := by
      intro hc
      rw [(authExchangeOk_iff resp).mpr hc] at hokf
      cases hokf
    exact ⟨(authenticate_fail (some hook) st resp hprop).2.1,
      (authenticate_fail none st resp hprop).2.1⟩
  · intro hok
    obtain ⟨h200, htok⟩ := (authExchangeOk_iff resp).mp hok
    refine ⟨?_, ?_, ?_⟩
    · rw [authenticate_ok_some hook st resp h200 htok]
      by_cases hc : hook (resp.data.token.getD "") = true
      · rw [if_pos hc]
      · rw [if_neg hc]
    · intro hc
      rw [authenticate_ok_some hook st resp h200 htok, if_pos hc]
    · intro hc
      rw [authenticate_ok_some hook st resp h200 htok,
        if_neg (by rw [hc]; exact Bool.false_ne_true)]

/-- Witness for C4 amended: a successful exchange with a hook that
returns normally invokes it once with the new token and the call
succeeds. -/
theorem c4_hook_witness :
    (authenticate (some (fun _ => true)) ⟨none, 0⟩ respAuthC4).hookCalls = ["tok_c4"] :=
  ((c4_hook (fun _ => true) ⟨none, 0⟩ respAuthC4).2 rfl).1

/-! ### Claims C1 and C2: the dispatcher -/

/-- Whether an exchange hit the target endpoint. -/
def isTargetEx : Exchange → Bool
  | ⟨.target, _⟩ => true
  | ⟨.auth, _⟩ => false

lemma targetCount_eq (tr : List Exchange) :
    targetCount tr = (tr.filter isTargetEx).length := by
  induction tr with
  | nil => rfl
  | cons e tr ih =>
    obtain ⟨k, b⟩ := e
    cases k <;> simp [targetCount, isTargetEx, List.filter] at ih ⊢ <;> exact ih

lemma targetCount_nil : targetCount [] = 0 := rfl

lemma authCount_nil : authCount [] = 0 := rfl

lemma targetCount_cons_target (b : Option String) (tr : List Exchange) :
    targetCount (⟨.target, b⟩ :: tr) = targetCount tr + 1 := by
  rw [targetCount_eq, targetCount_eq]
  simp [isTargetEx, List.filter]

lemma targetCount_cons_auth (b : Option String) (tr : List Exchange) :
    targetCount (⟨.auth, b⟩ :: tr) = targetCount tr := by
  rw [targetCount_eq, targetCount_eq]
  simp [isTargetEx, List.filter]

/-- Whether an exchange hit the /token endpoint. -/
def isAuthEx : Exchange → Bool
  | ⟨.target, _⟩ => false
  | ⟨.auth, _⟩ => true

lemma authCount_eq (tr : List Exchange) :
    authCount tr = (tr.filter isAuthEx).length := by
  induction tr with
  | nil => rfl
  | cons e tr ih =>
    obtain ⟨k, b⟩ := e
    cases k <;> simp [authCount, isAuthEx, List.filter] at ih ⊢ <;> exact ih

lemma authCount_cons_target (b : Option String) (tr : List Exchange) :
    authCount (⟨.target, b⟩ :: tr) = authCount tr := by
  rw [authCount_eq, authCount_eq]
  simp [isAuthEx, List.filter]

lemma authCount_cons_auth (b : Option String) (tr : List Exchange) :
    authCount (⟨.auth, b⟩ :: tr) = authCount tr + 1 := by
  rw [authCount_eq, authCount_eq]
  simp [isAuthEx, List.filter]

/-- Reduction of the dispatch core when the first exchange is not a
401. -/
lemma dispatchAfterToken_non401 (autoRefresh : Bool) (hook : Option Hook)
    (st : ClientState) (oracle : Oracle) (k : Nat)
    (h401 : (oracle k).status ≠ 401) :
    (dispatchAfterToken autoRefresh hook st oracle k).trace = [⟨.target, st.token⟩] := by
  simp only [dispatchAfterToken]
  rw [if_neg h401]
  split
  · rfl
  · split
    · rfl
    · split
      · rfl
      · rfl

/-- Reduction of the dispatch core on a 401 with auto-refresh off. -/
lemma dispatchAfterToken_401_noRefresh (autoRefresh : Bool) (hook : Option Hook)
    (st : ClientState) (oracle : Oracle) (k : Nat)
    (har : autoRefresh = false) (h401 : (oracle k).status = 401) :
    dispatchAfterToken autoRefresh hook st oracle k =
      ⟨.error (.bazik (mkAuthError (orElseStr (oracle k).data.errorMessage "Unauthorized.")
          (some 401) (oracle k).data.errorCode (some (.body (oracle k).data)))),
        st, [⟨.target, st.token⟩], []⟩ := by
  simp only [dispatchAfterToken]
  rw [if_pos h401, if_neg (by rw [har]; exact Bool.false_ne_true)]

/-- Reduction of the dispatch core on a 401 with auto-refresh on, when
the re-authentication fails: its error propagates with no retry. -/
lemma dispatchAfterToken_401_reauthErr (autoRefresh : Bool) (hook : Option Hook)
    (st : ClientState) (oracle : Oracle) (k : Nat) (e : Err)
    (har : autoRefresh = true) (h401 : (oracle k).status = 401)
    (he : (authenticate hook st (oracle (k + 1))).result = .error e) :
    dispatchAfterToken autoRefresh hook st oracle k =
      ⟨.error e, (authenticate hook st (oracle (k + 1))).state,
        [⟨.target, st.token⟩, ⟨.auth, none⟩],
        (authenticate hook st (oracle (k + 1))).hookCalls⟩ := by
  simp only [dispatchAfterToken]
  rw [if_pos h401, if_pos har, he]

/-- Reduction of the dispatch core on a 401 with auto-refresh on, when
the re-authentication succeeds: one retry with the new token, whose
body is returned unless the retry status is again 401, in which case the
fixed BazikAuthError is raised. -/
lemma dispatchAfterToken_401_reauthOk (autoRefresh : Bool) (hook : Option Hook)
    (st : ClientState) (oracle : Oracle) (k : Nat) (b : RespBody)
    (har : autoRefresh = true) (h401 : (oracle k).status = 401)
    (hb : (authenticate hook st (oracle (k + 1))).result = .ok b) :
    dispatchAfterToken autoRefresh hook st oracle k =
      ⟨if (oracle (k + 2)).status = 401 then
          .error (.bazik (mkAuthError "Authentication failed after token refresh."
            (some 401) (some "unauthorized") (some (.body (oracle (k + 2)).data))))
        else .ok (oracle (k + 2)).data,
        (authenticate hook st (oracle (k + 1))).state,
        [⟨.target, st.token⟩, ⟨.auth, none⟩,
          ⟨.target, (authenticate hook st (oracle (k + 1))).state.token⟩],
        (authenticate hook st (oracle (k + 1))).hookCalls⟩ := by
  simp only [dispatchAfterToken]
  rw [if_pos h401, if_pos har, hb]
  by_cases hr : (oracle (k + 2)).status = 401
  · rw [if_pos hr, if_pos hr]
  · rw [if_neg hr, if_neg hr]

/-- Every run of the dispatch core performs one, two or three exchanges:
the first target exchange, optionally one re-authentication, optionally
one retry of the target with the re-authenticated token. -/
lemma dispatchAfterToken_trace (autoRefresh : Bool) (hook : Option Hook)
    (st : ClientState) (oracle : Oracle) (k : Nat) :
    (dispatchAfterToken autoRefresh hook st oracle k).trace = [⟨.target, st.token⟩]
    ∨ (dispatchAfterToken autoRefresh hook st oracle k).trace =
        [⟨.target, st.token⟩, ⟨.auth, none⟩]
    ∨ (dispatchAfterToken autoRefresh hook st oracle k).trace =
        [⟨.target, st.token⟩, ⟨.auth, none⟩,
          ⟨.target, (authenticate hook st (oracle (k + 1))).state.token⟩] := by
  by_cases h401 : (oracle k).status = 401
  · cases autoRefresh with
    | false =>
      rw [dispatchAfterToken_401_noRefresh false hook st oracle k rfl h401]
      exact Or.inl rfl
    | true =>
      cases hr : (authenticate hook st (oracle (k + 1))).result with
      | error e =>
        rw [dispatchAfterToken_401_reauthErr true hook st oracle k e rfl h401 hr]
        exact Or.inr (Or.inl rfl)
      | ok b =>
        rw [dispatchAfterToken_401_reauthOk true hook st oracle k b rfl h401 hr]
        exact Or.inr (Or.inr rfl)
  · exact Or.inl (dispatchAfterToken_non401 autoRefresh hook st oracle k h401)

/-- Exchange bounds for the dispatch core: at most two target exchanges
and at most one re-authentication. -/
lemma dispatchAfterToken_counts (autoRefresh : Bool) (hook : Option Hook)
    (st : ClientState) (oracle : Oracle) (k : Nat) :
    targetCount (dispatchAfterToken autoRefresh hook st oracle k).trace ≤ 2
    ∧ authCount (dispatchAfterToken autoRefresh hook st oracle k).trace ≤ 1 := by
  rcases dispatchAfterToken_trace autoRefresh hook st oracle k with h | h | h <;>
    rw [h] <;>
    constructor <;>
    simp [targetCount_cons_target, targetCount_cons_auth, targetCount_nil,
      authCount_cons_target, authCount_cons_auth, authCount_nil]

/-- Claim C1: the single-retry-on-401 policy of the dispatcher.  Any
full _request performs at most two target exchanges and at most two
authentications.  When the first exchange of the dispatch core returns
401 with auto-refresh on, exactly one unconditional re-authentication
happens; if it succeeds the target is retried exactly once, carrying the
token of the re-authentication response, and a second 401 raises the
fixed BazikAuthError.  With auto-refresh off the call fails immediately
with a BazikAuthError built from the server response, after a single
exchange.  For any status other than 401 there is no retry and no
re-authentication. -/
theorem c1_retry_policy (autoRefresh : Bool) (hook : Option Hook) (now : Int)
    (st : ClientState) (oracle : Oracle) (k : Nat) :
    targetCount (underscoreRequest autoRefresh hook now st oracle).trace ≤ 2
    ∧ authCount (underscoreRequest autoRefresh hook now st oracle).trace ≤ 2
    ∧ ((oracle k).status = 401 →
        authCount (dispatchAfterToken true hook st oracle k).trace = 1
        ∧ (∀ b, (authenticate hook st (oracle (k + 1))).result = .ok b →
            (dispatchAfterToken true hook st oracle k).trace =
              [⟨.target, st.token⟩, ⟨.auth, none⟩,
                ⟨.target, (authenticate hook st (oracle (k + 1))).state.token⟩]
            ∧ (authenticate hook st (oracle (k + 1))).state.token =
                (oracle (k + 1)).data.token
            ∧ ((oracle (k + 2)).status = 401 →
                (dispatchAfterToken true hook st oracle k).result =
                  .error (.bazik (mkAuthError "Authentication failed after token refresh."
                    (some 401) (some "unauthorized")
                    (some (.body (oracle (k + 2)).data))))))
        ∧ (∀ e, (authenticate hook st (oracle (k + 1))).result = .error e →
            (dispatchAfterToken true hook st oracle k).result = .error e
            ∧ targetCount (dispatchAfterToken true hook st oracle k).trace = 1))
    ∧ ((oracle k).status = 401 →
        dispatchAfterToken false hook st oracle k =
          ⟨.error (.bazik (mkAuthError (orElseStr (oracle k).data.errorMessage "Unauthorized.")
              (some 401) (oracle k).data.errorCode (some (.body (oracle k).data)))),
            st, [⟨.target, st.token⟩], []⟩)
    ∧ ((oracle k).status ≠ 401 →
        targetCount (dispatchAfterToken autoRefresh hook st oracle k).trace = 1
        ∧ authCount (dispatchAfterToken autoRefresh hook st oracle k).trace = 0) := by
  refine ⟨?_, ?_, ?_, ?_, ?_⟩
  · simp only [underscoreRequest]
    split
    · cases hr : (authenticate hook st (oracle 0)).result with
      | error e =>
        simp only [hr]
        rw [targetCount_cons_auth, targetCount_nil]
        exact Nat.zero_le 2
      | ok b =>
        simp only [hr]
        rw [targetCount_cons_auth]
        exact (dispatchAfterToken_counts autoRefresh hook
          (authenticate hook st (oracle 0)).state oracle 1).1
    · exact (dispatchAfterToken_counts autoRefresh hook st oracle 0).1
  · simp only [underscoreRequest]
    split
    · cases hr : (authenticate hook st (oracle 0)).result with
      | error e =>
        simp only [hr]
        rw [authCount_cons_auth, authCount_nil]
        omega
      | ok b =>
        simp only [hr]
        rw [authCount_cons_auth]
        have := (dispatchAfterToken_counts autoRefresh hook
          (authenticate hook st (oracle 0)).state oracle 1).2
        omega
    · have := (dispatchAfterToken_counts autoRefresh hook st oracle 0).2
      omega
  · intro h401
    refine ⟨?_, ?_, ?_⟩
    · cases hr : (authenticate hook st (oracle (k + 1))).result with
      | error e =>
        rw [dispatchAfterToken_401_reauthErr true hook st oracle k e rfl h401 hr]
        rw [authCount_cons_target, authCount_cons_auth, authCount_nil]
      | ok b =>
        rw [dispatchAfterToken_401_reauthOk true hook st oracle k b rfl h401 hr]
        rw [authCount_cons_target, authCount_cons_auth, authCount_cons_target,
          authCount_nil]
    · intro b hb
      rw [dispatchAfterToken_401_reauthOk true hook st oracle k b rfl h401 hb]
      have hok : authExchangeOk (oracle (k + 1)) = true := by
        by_contra hokf
        have hprop : ¬ ((oracle (k + 1)).status = 200
            ∧ strTruthy (oracle (k + 1)).data.token = true) := by
          intro hc
          exact hokf ((authExchangeOk_iff (oracle (k + 1))).mpr hc)
        exact (authenticate_fail hook st (oracle (k + 1)) hprop).2.2 b hb
      obtain ⟨h200, htok⟩ := (authExchangeOk_iff (oracle (k + 1))).mp hok
      refine ⟨rfl, ?_, ?_⟩
      · cases hook with
        | none => rw [authenticate_ok_none st (oracle (k + 1)) h200 htok]
        | some h =>
          rw [authenticate_ok_some h st (oracle (k + 1)) h200 htok]
          by_cases hc : h ((oracle (k + 1)).data.token.getD "") = true
          · rw [if_pos hc]
          · rw [if_neg hc]
      · intro hretry
        rw [if_pos hretry]
    · intro e he
      rw [dispatchAfterToken_401_reauthErr true hook st oracle k e rfl h401 he]
      refine ⟨rfl, ?_⟩
      rw [targetCount_cons_target, targetCount_cons_auth, targetCount_nil]
  · intro h401
    exact dispatchAfterToken_401_noRefresh false hook st oracle k rfl h401
  · intro h401
    rw [dispatchAfterToken_non401 autoRefresh hook st oracle k h401]
    rw [targetCount_cons_target, targetCount_nil,
      authCount_cons_target, authCount_nil]
    exact ⟨rfl, rfl⟩

/-- A credential state whose token is fresh at time 0, so getToken
performs no authentication exchange. -/
def stFresh : ClientState := ⟨some "tok_live", 10000000000⟩

/-- Transport behaviour for the C1 witness: 401 on the first exchange,
successful re-authentication, 401 again on the retry. -/
def oracleC1 : Oracle := fun i =>
  if i = 1 then ⟨200, ⟨none, none, none, none, some "tok_new", 10000000000, 11⟩⟩
  else ⟨401, RespBody.empty⟩

/-- Witness for C1: with the concrete double-401 transport the dispatch
core raises the fixed after-refresh BazikAuthError. -/
theorem c1_retry_policy_witness :
    (dispatchAfterToken true none stFresh oracleC1 0).result =
      .error (.bazik (mkAuthError "Authentication failed after token refresh."
        (some 401) (some "unauthorized") (some (.body RespBody.empty)))) := by
  have h := c1_retry_policy true none 0 stFresh oracleC1 0
  have h2 := ((h.2.2.1 rfl).2.1 ⟨none, none, none, none, some "tok_new", 10000000000, 11⟩
    rfl).2.2 rfl
  exact h2

/-- The response body returned with status 500 on the retry in the C2
failing input. -/
def body500 : RespBody :=
  ⟨some "Internal server error", some "server_error", none, none, none, 0, 22⟩

/-- Transport behaviour for the C2 failing input: 401 on the first
exchange, successful re-authentication, then 500 on the retry. -/
def oracleC2 : Oracle := fun i =>
  if i = 0 then ⟨401, RespBody.empty⟩
  else if i = 1 then ⟨200, ⟨none, none, none, none, some "tok_new", 10000000000, 21⟩⟩
  else ⟨500, body500⟩

/-- Claim C2 evaluated at the failing input: the retry after a 401 comes
back with status 500, yet _request returns the 500 response body as a
success result instead of raising the generic error — the source checks
nothing but 401 on the retry path, so this non-2xx response is
swallowed. -/
theorem c2_retry_swallows_error :
    (underscoreRequest true none 0 stFresh oracleC2).result = .ok body500
    ∧ (oracleC2 2).status = 500 := by
  constructor
  · rfl
  · rfl

/-! ### Claim C7: the polling helper -/

/-- A payment result is only ever produced for a non-pending status, and
only after every earlier verification in the run returned the pending
sentinel. -/
lemma pollLoop_payment (ev : Nat → String × Nat) (intervalMs deadline timeoutMs : Nat) :
    ∀ fuel i t i2 s t2,
      (pollLoop ev intervalMs deadline timeoutMs fuel i t).1 = .payment i2 s t2 →
      s ≠ "pending" ∧ i ≤ i2 ∧ (ev i2).1 = s
        ∧ ∀ j, i ≤ j → j < i2 → (ev j).1 = "pending" := by
  intro fuel
  induction fuel with
  | zero =>
    intro i t i2 s t2 h
    simp only [pollLoop] at h
    split at h <;> simp at h
  | succ fuel ih =>
    intro i t i2 s t2 h
    simp only [pollLoop] at h
    split at h
    · split at h
      · rename_i hne
        simp only at h
        obtain ⟨h1, h2, h3⟩ := PollOutcome.payment.inj h
        subst h1
        subst h2
        refine ⟨?_, le_refl _, rfl, ?_⟩
        · rw [bne_iff_ne] at hne
          exact hne
        · intro j hj1 hj2
          omega
      · rename_i hne
        have hpend : (ev i).1 = "pending" := by
          rw [bne_iff_ne] at hne
          exact not_not.mp hne
        simp only at h
        obtain ⟨hs, hle, hev, hall⟩ := ih (i + 1) _ i2 s t2 h
        refine ⟨hs, by omega, hev, ?_⟩
        intro j hj1 hj2
        by_cases hji : j = i
        · rw [hji]
          exact hpend
        · exact hall j (by omega) hj2
    · simp at h

/-- Every verification in a polling run is issued at a clock time
strictly before the deadline (the loop condition guards the verify
call). -/
lemma pollLoop_verifyStarts (ev : Nat → String × Nat) (intervalMs deadline timeoutMs : Nat) :
    ∀ fuel i t,
      ∀ x ∈ (pollLoop ev intervalMs deadline timeoutMs fuel i t).2.verifyStarts,
        x < deadline := by
  intro fuel
  induction fuel with
  | zero =>
    intro i t x hx
    simp only [pollLoop] at hx
    split at hx <;> simp at hx
  | succ fuel ih =>
    intro i t x hx
    simp only [pollLoop] at hx
    split at hx
    · rename_i hlt
      split at hx
      · simp only [List.mem_singleton] at hx
        rw [hx]
        exact hlt
      · simp only [List.mem_cons] at hx
        rcases hx with hx | hx
        · rw [hx]
          exact hlt
        · exact ih (i + 1) _ x hx
    · simp at hx

/-- A failure result always carries the fixed timeout error and is
raised at a clock time at or past the deadline. -/
lemma pollLoop_failure (ev : Nat → String × Nat) (intervalMs deadline timeoutMs : Nat) :
    ∀ fuel i t e t2,
      (pollLoop ev intervalMs deadline timeoutMs fuel i t).1 = .failure e t2 →
      e = pollTimeoutError timeoutMs ∧ deadline ≤ t2 := by
  intro fuel
  induction fuel with
  | zero =>
    intro i t e t2 h
    simp only [pollLoop] at h
    split at h
    · simp at h
    · rename_i hlt
      simp only at h
      obtain ⟨h1, h2⟩ := PollOutcome.failure.inj h
      exact ⟨h1.symm, h2 ▸ not_lt.mp hlt⟩
  | succ fuel ih =>
    intro i t e t2 h
    simp only [pollLoop] at h
    split at h
    · split at h
      · simp at h
      · simp only at h
        exact ih (i + 1) _ e t2 h
    · rename_i hlt
      simp only at h
      obtain ⟨h1, h2⟩ := PollOutcome.failure.inj h
      exact ⟨h1.symm, h2 ▸ not_lt.mp hlt⟩

/-- When every verification stays pending, enough fuel drives the run to
the timeout failure, raised at or past the deadline. -/
lemma pollLoop_timeout (ev : Nat → String × Nat) (intervalMs deadline timeoutMs : Nat)
    (hpend : ∀ j, (ev j).1 = "pending") :
    ∀ fuel i t, deadline ≤ t + fuel * intervalMs →
      ∃ tEnd, (pollLoop ev intervalMs deadline timeoutMs fuel i t).1 =
          .failure (pollTimeoutError timeoutMs) tEnd ∧ deadline ≤ tEnd := by
  intro fuel
  induction fuel with
  | zero =>
    intro i t h
    simp only [Nat.zero_mul, Nat.add_zero] at h
    simp only [pollLoop]
    rw [if_neg (not_lt.mpr h)]
    exact ⟨t, rfl, h⟩
  | succ fuel ih =>
    intro i t h
    by_cases hlt : t < deadline
    · simp only [pollLoop]
      rw [if_pos hlt, if_neg (by rw [bne_iff_ne]; exact not_not_intro (hpend i))]
      rw [Nat.succ_mul] at h
      exact ih (i + 1) (t + (ev i).2 + intervalMs) (by omega)
    · simp only [pollLoop]
      rw [if_neg hlt]
      exact ⟨t, rfl, not_lt.mp hlt⟩

/-- The verification oracle of the C7 counterexample: always pending,
each verify call taking 60 units of wall-clock time. -/
def evPendingSlow : Nat → String × Nat := fun _ => ("pending", 60)

/-- Counterexample to C7 as stated: with interval 5000, timeout 50 and a
verification that takes 60 units, the single inter-attempt sleep begins
at clock time 60, after the deadline 50 has already passed — the source
checks the deadline only at the top of the loop, before the verify call,
and sleeps unconditionally after a pending result — and the timeout
error therefore surfaces only at time 5060, a full interval past the
deadline. -/
theorem c7_counterexample :
    (waitForCompletion evPendingSlow 5000 50 3).2.sleepStarts = [60]
    ∧ ¬ (60 < 50)
    ∧ (waitForCompletion evPendingSlow 5000 50 3).1 =
        .failure (pollTimeoutError 50) 5060
    ∧ 50 + 5000 ≤ 5060 := by
  refine ⟨rfl, by decide, rfl, by decide⟩

/-- Claim C7 amended: the helper returns the first verification result
whose status is not the pending sentinel; when every verification stays
pending it fails with the generic timeout error (code "timeout"), raised
at or past the deadline; and the deadline is checked before each
verification call — not before each inter-attempt sleep, so after a
pending verification the helper always sleeps one full interval before
re-checking and can overshoot the deadline by up to one extra interval
beyond the last verification. -/
theorem c7_waitForCompletion (ev : Nat → String × Nat) (intervalMs timeoutMs fuel : Nat) :
    (∀ i s t, (waitForCompletion ev intervalMs timeoutMs fuel).1 = .payment i s t →
      s ≠ "pending" ∧ (ev i).1 = s ∧ ∀ j, j < i → (ev j).1 = "pending")
    ∧ ((∀ j, (ev j).1 = "pending") → timeoutMs ≤ fuel * intervalMs →
        ∃ tEnd, (waitForCompletion ev intervalMs timeoutMs fuel).1 =
          .failure (pollTimeoutError timeoutMs) tEnd ∧ timeoutMs ≤ tEnd)
    ∧ (∀ x ∈ (waitForCompletion ev intervalMs timeoutMs fuel).2.verifyStarts,
        x < timeoutMs)
    ∧ (∀ e t2, (waitForCompletion ev intervalMs timeoutMs fuel).1 = .failure e t2 →
        e = pollTimeoutError timeoutMs ∧ timeoutMs ≤ t2) := by
  refine ⟨?_, ?_, ?_, ?_⟩
  · intro i s t h
    obtain ⟨hs, _, hev, hall⟩ :=
      pollLoop_payment ev intervalMs timeoutMs timeoutMs fuel 0 0 i s t h
    exact ⟨hs, hev, fun j hj => hall j (Nat.zero_le j) hj⟩
  · intro hpend hfuel
    exact pollLoop_timeout ev intervalMs timeoutMs timeoutMs hpend fuel 0 0
      (by simpa using hfuel)
  · exact pollLoop_verifyStarts ev intervalMs timeoutMs timeoutMs fuel 0 0
  · exact pollLoop_failure ev intervalMs timeoutMs timeoutMs fuel 0 0

/-- Witness for C7 amended: an always-pending verification with interval
10, timeout 50 and fuel 5 produces the timeout failure at or past the
deadline. -/
theorem c7_waitForCompletion_witness :
    ∃ tEnd, (waitForCompletion (fun _ => ("pending", 0)) 10 50 5).1 =
      .failure (pollTimeoutError 50) tEnd ∧ 50 ≤ tEnd :=
  (c7_waitForCompletion (fun _ => ("pending", 0)) 10 50 5).2.1
    (fun _ => rfl) (by decide)

end Bazik
